import Mathlib

/-!
# Verification of the spotify-cleaner core against its specification

Shallow embedding of `src/spotify_cleaner/spotify_client.py`,
`src/spotify_cleaner/cli.py` and `src/spotify_cleaner/auth.py`.

The HTTP layer is modelled as an oracle: a finite trace of
`HttpResponse` values consumed in order by the request primitive.  An
empty trace models a connection failure (in Python,
`requests.request` raising a `ConnectionError`, a subclass of
`RequestException`, which `_request` catches and turns into `None`).
-/

/-! ## The request primitive (`SpotifyClient._request`) -/

/-- `API_BASE_URL` from `spotify_client.py`. -/
def API_BASE_URL : String := "https://api.spotify.com/v1/"

/-- Query parameters, modelled as a list of key/value pairs
(Python passes a dict such as `{"limit": 50}`). -/
abbrev Params := List (String × Int)

/-- One HTTP response produced by the mocked network.  `body = none`
models an empty response body (`response.content` falsy); otherwise
`body = some v` is the parsed JSON value of type `α`. -/
structure HttpResponse (α : Type) where
  status : Nat
  retryAfter : Option String
  body : Option α
  deriving DecidableEq

/-- A request as issued on the wire: the resolved URL together with the
method, query params and JSON body passed to `requests.request`. -/
structure HttpRequest where
  method : String
  url : String
  params : Option Params
  jsonBody : Option String
  deriving DecidableEq

/-- Python `s.startswith(pre)`, computed structurally on the character
lists of the two strings. -/
def pyStartsWith (s pre : String) : Bool := pre.data.isPrefixOf s.data

/-- `url = endpoint if endpoint.startswith("http") else API_BASE_URL + endpoint`. -/
def resolveUrl (endpoint : String) : String :=
  if pyStartsWith endpoint "http" then endpoint else API_BASE_URL ++ endpoint

/-- What `_request` does at the Python level: either it returns a value
(`ok none` for "no result", i.e. a caught error or an empty 2xx body;
`ok (some v)` for a parsed JSON body) or it lets a `ValueError` escape
(`int()` applied to a malformed `Retry-After` header is outside any
`except` clause that could catch it). -/
inductive ReqResult (α : Type) where
  | ok : Option α → ReqResult α
  | valueError : ReqResult α
  deriving DecidableEq

/-- The observable outcome of one call to `_request`: its return value
(or escaping exception), the `time.sleep` durations it performed, how
many network requests it issued, the requests themselves, and the part
of the oracle trace left unconsumed. -/
structure ReqOutcome (α : Type) where
  result : ReqResult α
  sleeps : List Int
  consumed : Nat
  calls : List HttpRequest
  rest : List (HttpResponse α)
  deriving DecidableEq

/-- Python `s.strip()`: surrounding whitespace removed, computed
structurally on the character list. -/
def pyStrip (s : String) : String :=
  ⟨((s.data.dropWhile Char.isWhitespace).reverse.dropWhile Char.isWhitespace).reverse⟩

/-- Reads a non-empty run of decimal digits as a natural number;
`none` as soon as a non-digit appears. -/
def natFromDigitsAux : List Char → Nat → Option Nat
  | [], acc => some acc
  | c :: cs, acc =>
    if c.isDigit then natFromDigitsAux cs (acc * 10 + (c.toNat - 48)) else none

/-- A non-empty all-digit character list, as a natural number. -/
def pyNatOfChars (cs : List Char) : Option Nat :=
  match cs with
  | [] => none
  | _ => natFromDigitsAux cs 0

/-- CPython `int(s)` on a string: strips surrounding whitespace, then
accepts an optional sign followed by decimal digits; anything else
raises `ValueError`, modelled as `none`.  (Underscore digit separators
and non-ASCII digits are not modelled; no claim exercises them.) -/
def pyIntOfString (s : String) : Option Int :=
  match (pyStrip s).data with
  | [] => none
  | '+' :: cs => (pyNatOfChars cs).map Int.ofNat
  | '-' :: cs => (pyNatOfChars cs).map fun n => -(Int.ofNat n)
  | cs => (pyNatOfChars cs).map Int.ofNat

/-- `int(response.headers.get("Retry-After", 5))`: the default `5` when
the header is absent, otherwise the parsed header value; `none` means
the conversion raises `ValueError`. -/
def retryAfterSecs (header : Option String) : Option Int :=
  match header with
  | none => some 5
  | some s => pyIntOfString s

/-- `SpotifyClient._request(method, endpoint, params, json, retries)`
against an oracle trace.  Faithful to the Python source:
* empty trace: the connection fails, `requests.request` raises a
  `RequestException`, caught, error printed, `None` returned;
* status 429 with `retries > 0`: parse `Retry-After` (default 5; a
  malformed header raises an uncaught `ValueError`), sleep, then
  recurse with the same method/endpoint/params/json and `retries - 1`;
* any 4xx/5xx otherwise: `raise_for_status` raises `HTTPError`, caught
  by the `except RequestException` clause, `None` returned;
* otherwise: the parsed body if the response has content, else `None`. -/
def spotifyRequest {α : Type} (method endpoint : String) (params : Option Params)
    (jsonBody : Option String) : Nat → List (HttpResponse α) → ReqOutcome α
  | _, [] => ⟨.ok none, [], 1, [⟨method, resolveUrl endpoint, params, jsonBody⟩], []⟩
  | retries, resp :: rest =>
    if resp.status = 429 ∧ 0 < retries then
      match retryAfterSecs resp.retryAfter with
      | none => ⟨.valueError, [], 1, [⟨method, resolveUrl endpoint, params, jsonBody⟩], rest⟩
      | some n =>
        let out := spotifyRequest method endpoint params jsonBody (retries - 1) rest
        ⟨out.result, n :: out.sleeps, out.consumed + 1,
          ⟨method, resolveUrl endpoint, params, jsonBody⟩ :: out.calls, out.rest⟩
    else if 400 ≤ resp.status ∧ resp.status < 600 then
      ⟨.ok none, [], 1, [⟨method, resolveUrl endpoint, params, jsonBody⟩], rest⟩
    else
      ⟨.ok resp.body, [], 1, [⟨method, resolveUrl endpoint, params, jsonBody⟩], rest⟩

/-! ## `SpotifyClient.unfollow_playlist` -/

/-- Outcome of `unfollow_playlist`: a returned boolean, or an
exception escaping the method. -/
inductive UnfollowResult where
  | success (flag : Bool)
  | raised
  deriving DecidableEq

/-- `unfollow_playlist(playlist_id)`.  The Python body is
`try: self._request("DELETE", f"playlists/{playlist_id}/followers"); return True`
with `except requests.HTTPError: return False`.  Since `_request`
catches every `RequestException` (including `HTTPError`) internally and
returns `None` instead of raising, the `except` branch is unreachable:
the method returns `True` whatever the server answered.  The only
exception that can escape is the `ValueError` from a malformed
`Retry-After` header, which the `except HTTPError` clause does not
catch. -/
def unfollow_playlist {α : Type} (playlistId : String)
    (trace : List (HttpResponse α)) : UnfollowResult :=
  match (spotifyRequest "DELETE" ("playlists/" ++ playlistId ++ "/followers")
      none none 3 trace).result with
  | .valueError => .raised
  | .ok _ => .success true

/-! ## `SpotifyClient.get_current_user` -/

/-- Outcome of one call to `get_current_user` on a client whose cache
slot (`self._user_data`) holds `userData`: the returned value, the new
cache slot, and the number of network requests issued by the call —
or a raised exception. -/
inductive UserCall (α : Type) where
  | ret (value : Option α) (newState : Option α) (requests : Nat)
  | raised
  deriving DecidableEq

/-- `get_current_user()`:
`if self._user_data is None: self._user_data = self._request("GET", "me")`
then `return self._user_data`.  The cache sentinel is `None`, so a
call finding `_user_data = None` always issues a request, and a fetch
that produced `None` leaves the slot at the sentinel. -/
def get_current_user {α : Type} (userData : Option α)
    (trace : List (HttpResponse α)) : UserCall α :=
  match userData with
  | some u => .ret (some u) (some u) 0
  | none =>
    let out := spotifyRequest (α := α) "GET" "me" none none 3 trace
    match out.result with
    | .valueError => .raised
    | .ok v => .ret v v out.consumed

/-! ## `SpotifyClient.get_all_playlists` -/

/-- The page envelope `{"items": [...], "next": url-or-null}` returned
by the playlists endpoint (the only fields the code reads). -/
structure Page (ι : Type) where
  items : List ι
  next : Option String
  deriving DecidableEq

/-- Outcome of `get_all_playlists`: the accumulated items, or an
exception escaping the method (only the `Retry-After` `ValueError`
can; the `except requests.HTTPError` clause in the loop is unreachable
because `_request` never raises `HTTPError`). -/
inductive FetchResult (ι : Type) where
  | ok (items : List ι)
  | raised
  deriving DecidableEq

/-- The `while url:` loop of `get_all_playlists`.  `url = none` or
`url = some ""` is Python falsiness of the loop variable.  A `None`
result from `_request` (`if not data: break`) stops the loop keeping
the accumulator; a page extends the accumulator with its items, the
loop continues at `data.get("next")` with `params = None`.  Fuel is an
upper bound on the number of iterations: each iteration either stops
or consumes at least one oracle response, so `trace.length + 1` always
suffices.  (A page envelope is a non-empty Python dict, hence truthy,
so `if not data` is exactly `data is None` here.) -/
def fetchLoop {ι : Type} : Nat → List ι → Option String → Option Params →
    List (HttpResponse (Page ι)) → FetchResult ι
  | 0, acc, _, _, _ => .ok acc
  | _ + 1, acc, none, _, _ => .ok acc
  | fuel + 1, acc, some u, params, trace =>
    if u = "" then .ok acc
    else
      let out := spotifyRequest "GET" u params none 3 trace
      match out.result with
      | .valueError => .raised
      | .ok none => .ok acc
      | .ok (some page) => fetchLoop fuel (acc ++ page.items) page.next none out.rest

/-- `get_all_playlists()`: starts at the relative endpoint
`me/playlists` with `params = {"limit": 50}`. -/
def get_all_playlists {ι : Type} (trace : List (HttpResponse (Page ι))) : FetchResult ι :=
  fetchLoop (trace.length + 1) [] (some "me/playlists") (some [("limit", 50)]) trace

/-- A continuation link as the server would return it: an absolute
URL (so that `_request` does not prepend the base URL). -/
def nextPageUrl : String := "https://api.spotify.com/v1/me/playlists?offset=50&limit=50"

/-- An oracle trace for a well-formed paginated source: one `200`
response per page, each but the last carrying a continuation link. -/
def pagesTrace {ι : Type} : List (List ι) → List (HttpResponse (Page ι))
  | [] => []
  | p :: rest =>
    ⟨200, none, some ⟨p, if rest.isEmpty then none else some nextPageUrl⟩⟩ ::
      pagesTrace rest

/-- An oracle trace where every page carries a continuation link and
the request after the last page fails with status `failStatus`. -/
def pagesThenFail {ι : Type} (failStatus : Nat) :
    List (List ι) → List (HttpResponse (Page ι))
  | [] => [⟨failStatus, none, none⟩]
  | p :: rest => ⟨200, none, some ⟨p, some nextPageUrl⟩⟩ :: pagesThenFail failStatus rest

/-! ## The filter engine (`cli._apply_filters_to_playlists`) -/

/-- A compiled name pattern: either a valid case-insensitive regex,
abstracted to its `search` predicate over the playlist name, or a
pattern on which `re.compile` raises `re.error`. -/
inductive RegexPattern where
  | valid (srch : String → Bool)
  | invalid

/-- A playlist record, restricted to the fields the filter reads.
`ownerId` is `p.get('owner', {}).get('id')` (absent owner or absent id
both give `None`); the other `Option` fields model absent dict keys. -/
structure Playlist where
  id : String
  name : Option String
  ownerId : Option String
  collaborative : Option Bool
  tracksTotal : Option Int
  description : Option String
  deriving DecidableEq

/-- The current user profile, restricted to the `id` field the filter
reads (`current_user['id']`). -/
structure User where
  id : String
  deriving DecidableEq

/-- The keyword arguments of `_apply_filters_to_playlists`.  `none`
for `name`/`owner` covers both Python `None` and the empty string
(both falsy, so the corresponding `if` block is skipped);
`is_collaborative` is the tri-state `--collaborative` /
`--not-collaborative` / unset. -/
structure FilterArgs where
  name : Option RegexPattern
  owner : Option String
  is_collaborative : Option Bool
  empty : Bool
  no_description : Bool

/-- The `if name:` block: `none` on an invalid pattern models the
early `return []` (after the error is printed). -/
def nameStage (name : Option RegexPattern) (ps : List Playlist) :
    Option (List Playlist) :=
  match name with
  | none => some ps
  | some .invalid => none
  | some (.valid f) => some (ps.filter fun p => f (p.name.getD ""))

/-- Python `s.lower()`, computed structurally on the character list. -/
def pyLower (s : String) : String := ⟨s.data.map Char.toLower⟩

/-- The `if owner:` block: `none` models the early `return []` when
`client.get_current_user()` came back falsy; otherwise the three
modes `'me'` / `'not-me'` / literal id (the comparisons `owner.lower()`
and the untouched literal `owner` follow the source). -/
def ownerStage (owner : Option String) (currentUser : Option User)
    (ps : List Playlist) : Option (List Playlist) :=
  match owner with
  | none => some ps
  | some o =>
    match currentUser with
    | none => none
    | some cu =>
      if pyLower o = "me" then
        some (ps.filter fun p => p.ownerId == some cu.id)
      else if pyLower o = "not-me" then
        some (ps.filter fun p => p.ownerId != some cu.id)
      else
        some (ps.filter fun p => p.ownerId == some o)

/-- The `if is_collaborative is not None:` block:
`p.get('collaborative') == is_collaborative` (an absent field is
`None`, which equals neither `True` nor `False`). -/
def collabStage (c : Option Bool) (ps : List Playlist) : List Playlist :=
  match c with
  | none => ps
  | some b => ps.filter fun p => p.collaborative == some b

/-- The `if empty:` block: `p.get('tracks', {}).get('total', -1) == 0`. -/
def emptyStage (e : Bool) (ps : List Playlist) : List Playlist :=
  match e with
  | false => ps
  | true => ps.filter fun p => p.tracksTotal.getD (-1) == 0

/-- The `if no_description:` block: `not p.get('description')`, i.e.
the field is absent or the empty string. -/
def noDescriptionStage (d : Bool) (ps : List Playlist) : List Playlist :=
  match d with
  | false => ps
  | true => ps.filter fun p => p.description.getD "" == ""

/-- `_apply_filters_to_playlists(playlists, client, name, owner,
is_collaborative, empty, no_description)`.  The `client` argument is
replaced by the value `client.get_current_user()` would return, which
is the only use the function makes of it. -/
def apply_filters_to_playlists (playlists : List Playlist)
    (currentUser : Option User) (a : FilterArgs) : List Playlist :=
  match nameStage a.name playlists with
  | none => []
  | some ps1 =>
    match ownerStage a.owner currentUser ps1 with
    | none => []
    | some ps2 =>
      noDescriptionStage a.no_description (emptyStage a.empty
        (collabStage a.is_collaborative ps2))

/-! ## The authorization URL (`auth._perform_auth_flow`) -/

/-- `SCOPES` from `auth.py`. -/
def SCOPES : String :=
  "user-read-email playlist-modify-public playlist-modify-private playlist-read-private playlist-read-collaborative"

/-- The individual scope names requested by the application. -/
def scopeNames : List String :=
  ["user-read-email", "playlist-modify-public", "playlist-modify-private",
   "playlist-read-private", "playlist-read-collaborative"]

/-- `REDIRECT_URI` from `auth.py`. -/
def REDIRECT_URI : String := "http://127.0.0.1:8888/callback"

/-- The `auth_url` f-string built in `_perform_auth_flow` (step 1 of
the interactive flow), piece by piece as in the source. -/
def authUrl (clientId : String) : String :=
  "https://accounts.spotify.com/authorize?" ++
    "client_id=" ++ clientId ++ "&" ++
    "response_type=code&" ++
    "redirect_uri=" ++ REDIRECT_URI ++ "&" ++
    "scope=" ++ SCOPES

/-! ## Helper lemmas -/

/-- Every call to the request primitive issues at least one network
request (even a connection failure is one attempt). -/
theorem spotifyRequest_consumed_pos {α : Type} (m e : String) (p : Option Params)
    (b : Option String) (r : Nat) (t : List (HttpResponse α)) :
    1 ≤ (spotifyRequest m e p b r t).consumed := by
  induction t generalizing r with
  | nil => simp [spotifyRequest]
  | cons resp rest ih =>
    simp only [spotifyRequest]
    split
    · cases hra : retryAfterSecs resp.retryAfter with
      | none => simp
      | some n => simp
    · split <;> simp

/-- Stepping the request primitive over a plain `200` response. -/
theorem spotifyRequest_cons_200 {α : Type} (m u : String) (p : Option Params)
    (b : Option String) (r : Nat) (bod : Option α) (rest : List (HttpResponse α)) :
    spotifyRequest m u p b r (⟨200, none, bod⟩ :: rest) =
      ⟨.ok bod, [], 1, [⟨m, resolveUrl u, p, b⟩], rest⟩ := by
  simp [spotifyRequest]

/-- Stepping the request primitive over a non-429 error response:
`raise_for_status` raises, the exception is caught, `None` returned. -/
theorem spotifyRequest_cons_fail {α : Type} (m u : String) (p : Option Params)
    (b : Option String) (r : Nat) (s : Nat) (h1 : 400 ≤ s) (h2 : s < 600)
    (h3 : s ≠ 429) (ra : Option String) (bod : Option α)
    (rest : List (HttpResponse α)) :
    spotifyRequest m u p b r (⟨s, ra, bod⟩ :: rest) =
      ⟨.ok none, [], 1, [⟨m, resolveUrl u, p, b⟩], rest⟩ := by
  simp [spotifyRequest, h1, h2, h3]

/-- The pagination loop stops as soon as the next-page link is `None`. -/
theorem fetchLoop_none {ι : Type} (fuel : Nat) (acc : List ι) (params : Option Params)
    (trace : List (HttpResponse (Page ι))) :
    fetchLoop fuel acc none params trace = .ok acc := by
  cases fuel <;> simp [fetchLoop]

theorem pagesTrace_length {ι : Type} (pages : List (List ι)) :
    (pagesTrace pages).length = pages.length := by
  induction pages with
  | nil => rfl
  | cons p rest ih => simp [pagesTrace, ih]

theorem pagesThenFail_length {ι : Type} (failStatus : Nat) (pages : List (List ι)) :
    (pagesThenFail failStatus pages).length = pages.length + 1 := by
  induction pages with
  | nil => rfl
  | cons p rest ih => simp [pagesThenFail, ih]

/-- Running the pagination loop over a well-formed paginated trace
accumulates every page's items in order. -/
theorem fetchLoop_pagesTrace {ι : Type} (pages : List (List ι)) :
    ∀ (fuel : Nat) (acc : List ι) (u : String) (params : Option Params),
      u ≠ "" → pages.length < fuel →
      fetchLoop fuel acc (some u) params (pagesTrace pages) = .ok (acc ++ pages.flatten) := by
  induction pages with
  | nil =>
    intro fuel acc u params hu hf
    obtain ⟨f, rfl⟩ : ∃ f, fuel = f + 1 := ⟨fuel - 1, by omega⟩
    simp [pagesTrace, fetchLoop, hu, spotifyRequest]
  | cons p rest ih =>
    intro fuel acc u params hu hf
    obtain ⟨f, rfl⟩ : ∃ f, fuel = f + 1 := ⟨fuel - 1, by omega⟩
    simp only [pagesTrace, fetchLoop, if_neg hu, spotifyRequest_cons_200]
    cases rest with
    | nil => simp [fetchLoop_none]
    | cons q qs =>
      have hnu : nextPageUrl ≠ "" := by decide
      have hlen : (q :: qs).length < f := by
        simp only [List.length_cons] at hf ⊢; omega
      simp only [List.isEmpty_cons, ite_false, Bool.false_eq_true]
      rw [ih f (acc ++ p) nextPageUrl none hnu hlen]
      simp [List.append_assoc]

/-- Running the pagination loop over a trace whose last request fails
returns exactly the items accumulated before the failure. -/
theorem fetchLoop_pagesThenFail {ι : Type} (pages : List (List ι)) (failStatus : Nat)
    (h1 : 400 ≤ failStatus) (h2 : failStatus < 600) (h3 : failStatus ≠ 429) :
    ∀ (fuel : Nat) (acc : List ι) (u : String) (params : Option Params),
      u ≠ "" → pages.length < fuel →
      fetchLoop fuel acc (some u) params (pagesThenFail failStatus pages) =
        .ok (acc ++ pages.flatten) := by
  induction pages with
  | nil =>
    intro fuel acc u params hu hf
    obtain ⟨f, rfl⟩ : ∃ f, fuel = f + 1 := ⟨fuel - 1, by omega⟩
    simp [pagesThenFail, fetchLoop, hu, spotifyRequest_cons_fail _ _ _ _ _ _ h1 h2 h3]
  | cons p rest ih =>
    intro fuel acc u params hu hf
    obtain ⟨f, rfl⟩ : ∃ f, fuel = f + 1 := ⟨fuel - 1, by omega⟩
    simp only [pagesThenFail, fetchLoop, if_neg hu, spotifyRequest_cons_200]
    have hnu : nextPageUrl ≠ "" := by decide
    have hlen : rest.length < f := by
      simp only [List.length_cons] at hf; omega
    rw [ih f (acc ++ p) nextPageUrl none hnu hlen]
    simp [List.append_assoc]

/-- All criteria unset: every stage is the identity. -/
theorem apply_filters_all_unset (ps : List Playlist) (cu : Option User) :
    apply_filters_to_playlists ps cu ⟨none, none, none, false, false⟩ = ps := rfl

/-- The filter with only `owner='me'` keeps exactly the playlists
whose owner id equals the current user's id. -/
theorem apply_filters_owner_me (ps : List Playlist) (cu : User) :
    apply_filters_to_playlists ps (some cu) ⟨none, some "me", none, false, false⟩ =
      ps.filter fun p => p.ownerId == some cu.id := by
  have h : pyLower "me" = "me" := by decide
  simp [apply_filters_to_playlists, nameStage, ownerStage, collabStage, emptyStage,
    noDescriptionStage, h]

/-- The filter with only `owner='not-me'` keeps exactly the playlists
whose owner id differs from the current user's id. -/
theorem apply_filters_owner_not_me (ps : List Playlist) (cu : User) :
    apply_filters_to_playlists ps (some cu) ⟨none, some "not-me", none, false, false⟩ =
      ps.filter fun p => p.ownerId != some cu.id := by
  have h : pyLower "not-me" = "not-me" := by decide
  have h2 : ("not-me" : String) ≠ "me" := by decide
  simp [apply_filters_to_playlists, nameStage, ownerStage, collabStage, emptyStage,
    noDescriptionStage, h, h2]

/-! ## Claim theorems -/

/-- Claim C1 (code bug): the spec says `unfollow_playlist` returns
`False` when the DELETE fails (e.g. a 404), and `True` exactly when it
succeeds.  The code's own `except requests.HTTPError: return False`
branch documents that intent, but it is unreachable: `_request`
catches the `HTTPError` itself and returns `None`, so on a 404 the
method still returns `True`.  This theorem evaluates the embedded code
at the failing input: a mocked 404 yields `True` (no exception), the
same as a mocked 200. -/
theorem c1_unfollow_404_returns_true :
    unfollow_playlist (α := Unit) "37i9dQZF1DXcBWIGoYBM5M" [⟨404, none, none⟩] =
      .success true ∧
    unfollow_playlist (α := Unit) "37i9dQZF1DXcBWIGoYBM5M" [⟨200, none, none⟩] =
      .success true := by decide

/-- Claim C2 counterexample: a failed current-user lookup is not
cached.  The first call on a failing trace returns `None` and leaves
the cache slot at `None` while issuing 1 request; the subsequent call
(same slot, a trace where the server now answers) issues another
request (1, not 0) and returns the fresh value — contradicting the
claim that the absent first result is served from the cache with no
further network request. -/
theorem c2_failure_not_cached_counterexample :
    get_current_user (α := Unit) none [] = .ret none none 1 ∧
    get_current_user (α := Unit) none [⟨200, none, some ()⟩] =
      .ret (some ()) (some ()) 1 := by decide

/-- Claim C2 (amended): `get_current_user` is memoized per client
instance only for a successful first call — a call finding a cached
value returns it with no network request; a call finding the `None`
sentinel (initial state, or the state left by a failed lookup) always
issues a request, and a lookup that produced no result leaves the
sentinel in place. -/
theorem c2_memoization_amended {α : Type} (u : α)
    (t t' : List (HttpResponse α))
    (h : (spotifyRequest (α := α) "GET" "me" none none 3 t).result = .ok none) :
    get_current_user (some u) t' = .ret (some u) (some u) 0 ∧
    get_current_user none t =
      .ret none none (spotifyRequest (α := α) "GET" "me" none none 3 t).consumed ∧
    1 ≤ (spotifyRequest (α := α) "GET" "me" none none 3 t).consumed := by
  refine ⟨rfl, ?_, spotifyRequest_consumed_pos _ _ _ _ _ _⟩
  simp [get_current_user, h]

theorem c2_memoization_amended_witness :
    (spotifyRequest (α := Unit) "GET" "me" none none 3 []).result = .ok none ∧
    (get_current_user (some ()) [] = .ret (some ()) (some ()) 0 ∧
     get_current_user (α := Unit) none [] =
       .ret none none (spotifyRequest (α := Unit) "GET" "me" none none 3 []).consumed ∧
     1 ≤ (spotifyRequest (α := Unit) "GET" "me" none none 3 []).consumed) :=
  ⟨rfl, c2_memoization_amended () [] [] rfl⟩

/-- Claim C3: on a 429 with retries remaining, the request primitive
sleeps for the parsed `Retry-After` duration (5 when the header is
absent, via `retryAfterSecs`), then re-issues the same method,
endpoint, params and body with budget `r - 1`; in particular a 429
with `Retry-After: 2` followed by a 200 succeeds after one sleep of 2,
two identical wire requests, one retry credit consumed. -/
theorem c3_rate_limit_retry {α : Type} (m e : String) (p : Option Params)
    (b : Option String) (r : Nat) (hr : 0 < r) (resp : HttpResponse α)
    (h429 : resp.status = 429) (n : Int)
    (hra : retryAfterSecs resp.retryAfter = some n)
    (rest : List (HttpResponse α)) (bod : α) :
    spotifyRequest m e p b r (resp :: rest) =
      ⟨(spotifyRequest m e p b (r - 1) rest).result,
        n :: (spotifyRequest m e p b (r - 1) rest).sleeps,
        (spotifyRequest m e p b (r - 1) rest).consumed + 1,
        ⟨m, resolveUrl e, p, b⟩ :: (spotifyRequest m e p b (r - 1) rest).calls,
        (spotifyRequest m e p b (r - 1) rest).rest⟩ ∧
    spotifyRequest m e p b r (⟨429, some "2", none⟩ :: ⟨200, none, some bod⟩ :: rest) =
      ⟨.ok (some bod), [2], 2,
        [⟨m, resolveUrl e, p, b⟩, ⟨m, resolveUrl e, p, b⟩], rest⟩ := by
  constructor
  · simp [spotifyRequest, h429, hr, hra]
  · have h2 : retryAfterSecs (some "2") = some 2 := by decide
    simp [spotifyRequest, hr, h2, spotifyRequest_cons_200]

theorem c3_rate_limit_retry_witness :
    0 < 3 ∧
    spotifyRequest (α := Unit) "GET" "me" none none 3
        [⟨429, some "2", none⟩, ⟨200, none, some ()⟩] =
      ⟨.ok (some ()), [2], 2,
        [⟨"GET", resolveUrl "me", none, none⟩, ⟨"GET", resolveUrl "me", none, none⟩],
        []⟩ :=
  ⟨by decide,
    (c3_rate_limit_retry "GET" "me" none none 3 (by decide)
      (⟨429, some "2", none⟩ : HttpResponse Unit) rfl 2 (by decide) [] ()).2⟩

/-- Claim C4: `get_all_playlists` follows next-page links and
accumulates items in order — over a well-formed paginated source it
returns exactly the concatenation of all pages; and when the request
for a page fails (any non-429 HTTP error status), pagination stops and
the items accumulated so far are returned as a partial result, not an
error. -/
theorem c4_pagination_accumulates {ι : Type} (pages : List (List ι))
    (failStatus : Nat) (h1 : 400 ≤ failStatus) (h2 : failStatus < 600)
    (h3 : failStatus ≠ 429) :
    get_all_playlists (pagesTrace pages) = .ok pages.flatten ∧
    get_all_playlists (pagesThenFail failStatus pages) = .ok pages.flatten := by
  constructor
  · have := fetchLoop_pagesTrace pages ((pagesTrace (ι := ι) pages).length + 1)
      [] "me/playlists" (some [("limit", 50)]) (by decide)
      (by rw [pagesTrace_length]; omega)
    simpa [get_all_playlists] using this
  · have := fetchLoop_pagesThenFail pages failStatus h1 h2 h3
      ((pagesThenFail (ι := ι) failStatus pages).length + 1)
      [] "me/playlists" (some [("limit", 50)]) (by decide)
      (by rw [pagesThenFail_length]; omega)
    simpa [get_all_playlists] using this

theorem c4_pagination_accumulates_witness :
    400 ≤ 404 ∧ 404 < 600 ∧ (404 : Nat) ≠ 429 ∧
    get_all_playlists (pagesTrace [[1, 2], [3]]) = .ok [1, 2, 3] ∧
    get_all_playlists (pagesThenFail 404 [[1, 2], [3]]) = .ok [1, 2, 3] := by
  have h := c4_pagination_accumulates [[1, 2], [3]] 404 (by decide) (by decide) (by decide)
  exact ⟨by decide, by decide, by decide, by simpa using h.1, by simpa using h.2⟩

/-- Claim C5: with every criterion unset (name, owner, collaborative,
empty, no-description all absent) the filter returns the input list
unchanged. -/
theorem c5_no_criteria_identity (ps : List Playlist) (cu : Option User) :
    apply_filters_to_playlists ps cu ⟨none, none, none, false, false⟩ = ps :=
  apply_filters_all_unset ps cu

/-- Claim C6: for a fixed current user, the `owner='me'` and
`owner='not-me'` filter results are disjoint, every input playlist
lands in exactly one of them, and the union of their id sets equals
the id set of the result of filtering with no owner criterion. -/
theorem c6_owner_partition (ps : List Playlist) (cu : User) (p : Playlist)
    (i : String) :
    (¬ (p ∈ apply_filters_to_playlists ps (some cu) ⟨none, some "me", none, false, false⟩ ∧
        p ∈ apply_filters_to_playlists ps (some cu) ⟨none, some "not-me", none, false, false⟩)) ∧
    ((p ∈ apply_filters_to_playlists ps (some cu) ⟨none, some "me", none, false, false⟩ ∨
      p ∈ apply_filters_to_playlists ps (some cu) ⟨none, some "not-me", none, false, false⟩) ↔
      p ∈ apply_filters_to_playlists ps (some cu) ⟨none, none, none, false, false⟩) ∧
    ((i ∈ (apply_filters_to_playlists ps (some cu) ⟨none, some "me", none, false, false⟩).map Playlist.id ∨
      i ∈ (apply_filters_to_playlists ps (some cu) ⟨none, some "not-me", none, false, false⟩).map Playlist.id) ↔
      i ∈ (apply_filters_to_playlists ps (some cu) ⟨none, none, none, false, false⟩).map Playlist.id) := by
  rw [apply_filters_owner_me, apply_filters_owner_not_me, apply_filters_all_unset]
  refine ⟨?_, ?_, ?_⟩
  · simp only [List.mem_filter, bne_iff_ne, beq_iff_eq, ne_eq, decide_eq_true_eq]
    tauto
  · simp only [List.mem_filter, bne_iff_ne, beq_iff_eq, ne_eq, decide_eq_true_eq]
    by_cases hp : p.ownerId = some cu.id <;> tauto
  · simp only [List.mem_map, List.mem_filter, bne_iff_ne, beq_iff_eq, ne_eq,
      decide_eq_true_eq]
    constructor
    · rintro (⟨q, ⟨hq, _⟩, rfl⟩ | ⟨q, ⟨hq, _⟩, rfl⟩) <;> exact ⟨q, hq, rfl⟩
    · rintro ⟨q, hq, rfl⟩
      by_cases hqo : q.ownerId = some cu.id
      · exact Or.inl ⟨q, ⟨hq, hqo⟩, rfl⟩
      · exact Or.inr ⟨q, ⟨hq, hqo⟩, rfl⟩

/-- Claim C7: a name criterion whose pattern is an invalid regular
expression makes the whole filter return the empty list, whatever the
other criteria and the input are. -/
theorem c7_invalid_regex_empty (ps : List Playlist) (cu : Option User)
    (o : Option String) (c : Option Bool) (e d : Bool) :
    apply_filters_to_playlists ps cu ⟨some .invalid, o, c, e, d⟩ = [] := rfl

/-- Claim C8 counterexample: the scope query parameter of the
authorization URL is not a space-free concatenation of the scope
names — the `SCOPES` string embedded verbatim in the URL contains
spaces, and differs from the space-free concatenation of the names. -/
theorem c8_scope_not_space_free_counterexample :
    (authUrl "client123").data.contains ' ' = true ∧
    SCOPES.data.contains ' ' = true ∧
    SCOPES ≠ String.join scopeNames := by decide

/-- Claim C8 (amended): the authorization URL passes the scope query
parameter as the space-separated concatenation of the requested scope
names (embedded verbatim, without URL-encoding). -/
theorem c8_scope_space_separated_amended (cid : String) :
    SCOPES = String.intercalate " " scopeNames ∧
    authUrl cid =
      "https://accounts.spotify.com/authorize?" ++
        "client_id=" ++ cid ++ "&" ++
        "response_type=code&" ++
        "redirect_uri=" ++ REDIRECT_URI ++ "&" ++
        "scope=" ++ String.intercalate " " scopeNames := by
  have h : SCOPES = String.intercalate " " scopeNames := by decide
  exact ⟨h, by simp only [authUrl, h]⟩

/-- Claim C9: if an owner criterion is supplied (any non-empty string:
`'me'`, `'not-me'` or a literal id) and the current-user lookup came
back absent, the filter returns the empty list, whatever the other
criteria and the input are. -/
theorem c9_owner_without_user_empty (ps : List Playlist)
    (n : Option RegexPattern) (o : String) (c : Option Bool) (e d : Bool) :
    apply_filters_to_playlists ps none ⟨n, some o, c, e, d⟩ = [] := by
  cases n with
  | none => rfl
  | some pat =>
    cases pat with
    | invalid => rfl
    | valid f => rfl

/-- Claim C10: a 429 response whose `Retry-After` header is not a
decimal integer string makes the unguarded `int()` conversion raise a
`ValueError` that escapes the request primitive (no absent result is
produced): with retries remaining, the call ends in `valueError`. -/
theorem c10_bad_retry_after_raises {α : Type} (m e : String) (p : Option Params)
    (b : Option String) (r : Nat) (hr : 0 < r) (s : String)
    (hs : pyIntOfString s = none) (bod : Option α)
    (rest : List (HttpResponse α)) :
    spotifyRequest m e p b r (⟨429, some s, bod⟩ :: rest) =
      ⟨.valueError, [], 1, [⟨m, resolveUrl e, p, b⟩], rest⟩ := by
  have h : retryAfterSecs (some s) = none := hs
  simp [spotifyRequest, hr, h]

theorem c10_bad_retry_after_raises_witness :
    0 < 3 ∧ pyIntOfString "abc" = none ∧
    spotifyRequest (α := Unit) "GET" "me" none none 3 [⟨429, some "abc", none⟩] =
      ⟨.valueError, [], 1, [⟨"GET", resolveUrl "me", none, none⟩], []⟩ :=
  ⟨by decide, by decide,
    c10_bad_retry_after_raises "GET" "me" none none 3 (by decide) "abc" (by decide)
      none []⟩
